import Mathlib

/-!
Shallow embedding of `src/models/model_integration.py` (class `AIModelManager`):
the model registry built by `load_all_models`, the feature-vector construction
inside `predict_learner_type` / `analyze_engagement`, the prediction extraction
(argmax class and max class probability, sklearn's documented behaviour of
`predict` / `predict_proba` for the RandomForest/GradientBoosting pipelines
produced by `src/models/simple_trainer.py`), and the recommendation
orchestration `get_adaptive_recommendations` / `_generate_recommendations`.

Python dictionaries with string keys are modelled as association lists,
numeric values as `ℚ`, and a value that cannot be coerced to float (the only
property of a value the prediction path inspects) as the opaque `FeatVal.obj`.
Errors are the `{"error": msg}` dictionaries the source returns, modelled as
`Except String`.
-/

namespace AdaptiveLearning

/-- A value stored in a student-features dictionary: either a number, or an
object that cannot be coerced to float (e.g. a list or None); the prediction
path only ever distinguishes these two cases. -/
inductive FeatVal where
  | num (q : ℚ)
  | obj
  deriving DecidableEq, Repr

/-- The `student_features` dictionary: string keys to loosely-typed values. -/
abbrev StudentFeatures := List (String × FeatVal)

/-- Coercion of one dictionary value to float, as performed inside the
pipeline when the DataFrame is converted to a numeric array. -/
def coerceFloat : FeatVal → Option ℚ
  | .num q => some q
  | .obj => none

/-- Coercion of a whole feature row to floats; `none` when any entry fails,
which in the source raises inside the pipeline call. -/
def coerceVec (v : List FeatVal) : Option (List ℚ) :=
  v.mapM coerceFloat

/-- A fitted sklearn classification pipeline: its class list `classes_` and
its class-probability output for a (single-row) numeric input.  `predict` is
not stored separately: for the RandomForest / GradientBoosting classifiers
built by `simple_trainer.py`, sklearn's `predict` returns
`classes_[argmax(predict_proba)]` with ties broken by first occurrence. -/
structure Pipeline where
  classes_ : List String
  predict_proba : List ℚ → List ℚ

/-- First index attaining the maximum of a list (numpy's `argmax`). -/
def argmaxIdx (l : List ℚ) : Nat :=
  match l.max? with
  | none => 0
  | some m => l.indexOf m

/-- The pipeline's `predict` on one row: the class at the argmax of the
probability vector. -/
def pipePredict (pl : Pipeline) (x : List ℚ) : String :=
  pl.classes_.getD (argmaxIdx (pl.predict_proba x)) ""

/-- One entry of `self.models`: the dictionary built at lines 48-53 /
66-71 of `model_integration.py`. -/
structure ModelArtifact where
  pipeline : Pipeline
  feature_names : List String
  classes : List String
  accuracy : ℚ

/-- The registry `self.models`, keyed by logical model name. -/
abbrev Registry := List (String × ModelArtifact)

/-- A deserialized artifact value, seen through the fields the loader reads:
either not a dict at all, or a dict with an optional `pipeline`,
`feature_names`, `classes` and `accuracy` entry. -/
inductive PickleValue where
  | nonDict
  | dict (pipeline : Option Pipeline) (feature_names : Option (List String))
      (classes : Option (List String)) (accuracy : Option ℚ)

/-- Result of one `pickle.load` attempt from an open artifact file: either the
call raises, or it yields a Python value. -/
inductive ReadResult where
  | raisesExc
  | val (v : PickleValue)

/-- State of one artifact file on disk: absent, or present with the outcome of
the default `pickle.load` and of the `encoding='latin1'` fallback load. -/
inductive FileState where
  | absent
  | present (primary : ReadResult) (fallbackLatin1 : ReadResult)

/-- Lines 47-53 (and identically 65-71): accept a deserialized value only when
it is a dict containing `'pipeline'`; optional metadata defaults to empty
lists and `0.0` via `dict.get`. -/
def extractArtifact : PickleValue → Option ModelArtifact
  | .nonDict => none
  | .dict none _ _ _ => none
  | .dict (some pl) fn cls acc => some ⟨pl, fn.getD [], cls.getD [], acc.getD 0⟩

/-- Loading one model file (lines 41-76): absent file is skipped; a value from
the primary `pickle.load` is accepted or rejected on format with no second
attempt; only when the primary load raises is the single `latin1` fallback
load tried, whose failure (raise or bad format) abandons the name. -/
def loadOne : FileState → Option ModelArtifact
  | .absent => none
  | .present (.val v) _ => extractArtifact v
  | .present .raisesExc .raisesExc => none
  | .present .raisesExc (.val v) => extractArtifact v

/-- A deserialization attempt made by the loader for one file. -/
inductive DeserAttempt where
  | primary
  | fallbackLatin1
  deriving DecidableEq, Repr

/-- The deserialization attempts the loader makes for one file, in order:
none for an absent file, the primary attempt alone when it returns a value,
and primary followed by exactly one `latin1` fallback when the primary load
raises. -/
def deserAttempts : FileState → List DeserAttempt
  | .absent => []
  | .present (.val _) _ => [.primary]
  | .present .raisesExc _ => [.primary, .fallbackLatin1]

/-- The fixed file list of `load_all_models` (lines 31-35). -/
def model_files : List String :=
  ["learner_classification_rf.pkl",
   "performance_prediction_gb.pkl",
   "engagement_analysis_rf.pkl"]

/-- Logical model name from file name: `model_file.replace('.pkl', '')`
(line 39).  `String.replace` is not kernel-reducible, so the effect on these
suffix-named files is modelled by dropping the 4-character `.pkl` suffix. -/
def modelNameOf (file : String) : String :=
  file.dropRight 4

/-- The loading loop of `load_all_models` (lines 37-76) over an abstract
store mapping file names to file states: each successfully loaded artifact is
inserted under its logical name, every failure only skips its own name. -/
def load_all_models (store : String → FileState) : Registry :=
  model_files.foldl
    (fun models file =>
      match loadOne (store file) with
      | some art => models ++ [(modelNameOf file, art)]
      | none => models)
    []

/-- Feature order hard-coded in `predict_learner_type` (lines 88-92). -/
def learner_feature_cols : List String :=
  ["accuracy", "total_questions", "avg_time_seconds",
   "avg_attempts", "avg_hints_used", "consistency",
   "speed_accuracy_tradeoff", "persistence", "engagement", "efficiency"]

/-- Feature order hard-coded in `analyze_engagement` (lines 155-158). -/
def engagement_feature_cols : List String :=
  ["total_interactions", "avg_accuracy", "accuracy_std",
   "avg_attempts", "avg_time"]

/-- The row comprehension `[student_features.get(col, 0) for col in
feature_cols]` (line 95, and identically lines 130 and 161). -/
def build (F : StudentFeatures) (S : List String) : List FeatVal :=
  S.map fun col => (F.lookup col).getD (.num 0)

/-- The row `predict_learner_type` hands to its pipeline. -/
def learnerInputVector (F : StudentFeatures) : List FeatVal :=
  build F learner_feature_cols

/-- The row `analyze_engagement` hands to its pipeline. -/
def engagementInputVector (F : StudentFeatures) : List FeatVal :=
  build F engagement_feature_cols

/-- Message of the exception numpy raises when a DataFrame cell cannot be
converted to float (its exact wording is irrelevant to the contracts). -/
def floatConvMsg : String := "could not convert value to float"

/-- Message of the exception raised when the probability vector is empty. -/
def emptySeqMsg : String := "attempt to get argmax of an empty sequence"

/-- The success dictionary returned by `predict_learner_type` (lines
106-111). -/
structure LearnerPrediction where
  learner_type : String
  confidence : ℚ
  rf_prediction : String
  rf_confidence : ℚ
  deriving DecidableEq, Repr

/-- Lines 80-114: fail if the model name is absent; build the feature row from
the hard-coded column order with `dict.get(col, 0)`; any exception inside the
`try` block (a non-coercible cell, an empty probability vector) becomes the
generic `"Prediction failed: ..."` error; otherwise return the pipeline's
predicted class and the maximum class probability. -/
def predict_learner_type (M : Registry) (F : StudentFeatures) :
    Except String LearnerPrediction :=
  match M.lookup "learner_classification_rf" with
  | none => .error "Learner classification model not loaded"
  | some art =>
    match coerceVec (learnerInputVector F) with
    | none => .error ("Prediction failed: " ++ floatConvMsg)
    | some X =>
      let rf_model := art.pipeline
      let rf_proba := rf_model.predict_proba X
      match rf_proba.max? with
      | none => .error ("Prediction failed: " ++ emptySeqMsg)
      | some confidence =>
        let rf_pred := pipePredict rf_model X
        .ok ⟨rf_pred, confidence, rf_pred, confidence⟩

/-- The success dictionary returned by `analyze_engagement` (lines
172-176). -/
structure EngagementPrediction where
  engagement_level : String
  confidence : ℚ
  rf_prediction : String
  deriving DecidableEq, Repr

/-- Lines 147-179: same shape as `predict_learner_type` with its own model
name, column order and error strings. -/
def analyze_engagement (M : Registry) (F : StudentFeatures) :
    Except String EngagementPrediction :=
  match M.lookup "engagement_analysis_rf" with
  | none => .error "Engagement analysis model not loaded"
  | some art =>
    match coerceVec (engagementInputVector F) with
    | none => .error ("Engagement analysis failed: " ++ floatConvMsg)
    | some X =>
      let rf_model := art.pipeline
      let rf_proba := rf_model.predict_proba X
      match rf_proba.max? with
      | none => .error ("Engagement analysis failed: " ++ emptySeqMsg)
      | some confidence =>
        let rf_pred := pipePredict rf_model X
        .ok ⟨rf_pred, confidence, rf_pred⟩

/-- The recommendations dictionary of `_generate_recommendations`
(lines 210-215). -/
structure Recommendations where
  study_plan : List String
  resources : List String
  difficulty_adjustment : String
  motivation_tips : List String
  deriving DecidableEq, Repr

/-- Motivation tips for `engagement_level == "low"` (lines 247-252). -/
def low_motivation_tips : List String :=
  ["Set small, achievable goals",
   "Take regular breaks",
   "Find study partners or groups",
   "Reward yourself for progress"]

/-- Motivation tips for `engagement_level == "high"` (lines 254-259). -/
def high_motivation_tips : List String :=
  ["Maintain your excellent momentum!",
   "Challenge yourself with advanced topics",
   "Share your knowledge with others",
   "Set ambitious but realistic goals"]

/-- The unconditional resources list (lines 262-267). -/
def resources_list : List String :=
  ["Interactive practice problems",
   "Video tutorials",
   "Peer study groups",
   "One-on-one tutoring sessions"]

/-- Lines 207-269 (`_generate_recommendations`): start from empty defaults,
overwrite `study_plan`/`difficulty_adjustment` on the three known learner
types, overwrite `motivation_tips` on `low`/`high` engagement, and always set
the constant `resources`.  `student_data` is accepted and ignored, as in the
source. -/
def generate_recommendations (learner_type engagement_level : String)
    (_student_data : StudentFeatures) : Recommendations :=
  let recommendations : Recommendations :=
    { study_plan := [], resources := [], difficulty_adjustment := "",
      motivation_tips := [] }
  let recommendations :=
    if learner_type = "advanced" then
      { recommendations with
        study_plan :=
          ["Focus on challenging problems and advanced topics",
           "Explore multiple solution approaches",
           "Consider mentoring other students",
           "Take on complex, multi-step problems"],
        difficulty_adjustment := "Increase difficulty to maintain engagement" }
    else if learner_type = "moderate" then
      { recommendations with
        study_plan :=
          ["Practice with intermediate difficulty problems",
           "Focus on building confidence with fundamentals",
           "Gradually increase difficulty level",
           "Review concepts you find challenging"],
        difficulty_adjustment :=
          "Maintain current difficulty with gradual increases" }
    else if learner_type = "struggling" then
      { recommendations with
        study_plan :=
          ["Start with basic concepts and fundamentals",
           "Take your time and don't rush",
           "Ask for help when needed",
           "Practice with easier problems to build confidence"],
        difficulty_adjustment := "Decrease difficulty and provide more support" }
    else recommendations
  let recommendations :=
    if engagement_level = "low" then
      { recommendations with motivation_tips := low_motivation_tips }
    else if engagement_level = "high" then
      { recommendations with motivation_tips := high_motivation_tips }
    else recommendations
  { recommendations with resources := resources_list }

/-- The nested confidence dictionary of `get_adaptive_recommendations`
(lines 201-204). -/
structure ConfidencePair where
  learner : ℚ
  engagement : ℚ
  deriving DecidableEq, Repr

/-- The success dictionary of `get_adaptive_recommendations`
(lines 197-205). -/
structure AdaptiveRecommendations where
  learner_type : String
  engagement_level : String
  recommendations : Recommendations
  confidence : ConfidencePair
  deriving DecidableEq, Repr

/-- Lines 181-205: run both predictions; if either result carries an error,
return the single orchestration error; otherwise map the two labels through
`_generate_recommendations`. -/
def get_adaptive_recommendations (M : Registry) (F : StudentFeatures) :
    Except String AdaptiveRecommendations :=
  let learner_result := predict_learner_type M F
  let engagement_result := analyze_engagement M F
  match learner_result, engagement_result with
  | .ok lr, .ok er =>
    .ok { learner_type := lr.learner_type,
          engagement_level := er.engagement_level,
          recommendations :=
            generate_recommendations lr.learner_type er.engagement_level F,
          confidence := { learner := lr.confidence, engagement := er.confidence } }
  | _, _ => .error "Failed to generate recommendations"

/-! Concrete artifacts, registries and stores used by witnesses and
counterexamples. -/

/-- A two-class pipeline whose probability output is constantly `[0, 1]`. -/
def plTwoClass : Pipeline := ⟨["struggling", "advanced"], fun _ => [0, 1]⟩

/-- An artifact record lacking `feature_names` for the learner model file;
every other file absent. -/
def storeNoFeatureNames : String → FileState := fun file =>
  if file = "learner_classification_rf.pkl" then
    .present (.val (.dict (some plTwoClass) none none none)) .raisesExc
  else .absent

/-- The artifact the loader builds from `storeNoFeatureNames`'s learner file:
all optional metadata defaulted. -/
def artNoFeatureNames : ModelArtifact := ⟨plTwoClass, [], [], 0⟩

/-- An artifact whose `feature_names` metadata agrees with the hard-coded
learner column order. -/
def artMatchingNames : ModelArtifact :=
  ⟨plTwoClass, learner_feature_cols, ["struggling", "advanced"], 1⟩

/-- A registry holding only the learner model, with matching metadata. -/
def regLearnerOnly : Registry :=
  [("learner_classification_rf", artMatchingNames)]

/-- A store where only the engagement file is readable, the learner file
raises on the primary load and deserializes under `latin1`, and the
performance file is absent. -/
def storeMixed : String → FileState := fun file =>
  if file = "engagement_analysis_rf.pkl" then
    .present (.val (.dict (some plTwoClass) none none none)) .raisesExc
  else if file = "learner_classification_rf.pkl" then
    .present .raisesExc (.val (.dict (some plTwoClass) none none (some 1)))
  else .absent

end AdaptiveLearning

namespace AdaptiveLearning

/-- If the learner model name is absent from the registry,
`predict_learner_type` returns its not-loaded error. -/
theorem predict_learner_type_absent {M : Registry} {F : StudentFeatures}
    (h : M.lookup "learner_classification_rf" = none) :
    predict_learner_type M F = .error "Learner classification model not loaded" := by
  unfold predict_learner_type
  rw [h]

/-- If the engagement model name is absent from the registry,
`analyze_engagement` returns its not-loaded error. -/
theorem analyze_engagement_absent {M : Registry} {F : StudentFeatures}
    (h : M.lookup "engagement_analysis_rf" = none) :
    analyze_engagement M F = .error "Engagement analysis model not loaded" := by
  unfold analyze_engagement
  rw [h]

/-- C2: for every schema `S` and features `F`, the built vector has length
`len(S)`; its `i`-th element is `F[S[i]]` when present and `0` otherwise; and
keys of `F` outside `S` never affect the vector (any `F'` agreeing with `F`
on the keys of `S` builds the same vector). -/
theorem C2_build_elementwise (F : StudentFeatures) (S : List String) :
    (build F S).length = S.length ∧
    (∀ i : Nat, (build F S)[i]? =
      (S[i]?).map (fun c => (F.lookup c).getD (.num 0))) ∧
    (∀ F' : StudentFeatures, (∀ c ∈ S, F.lookup c = F'.lookup c) →
      build F S = build F' S) := by
  refine ⟨by simp [build], fun i => by simp [build], fun F' h => ?_⟩
  unfold build
  exact List.map_congr_left fun c hc => by rw [h c hc]

/-- Witness for C2 at a concrete schema and feature mapping: the extra key
`"c"` does not change the built vector. -/
theorem C2_build_elementwise_witness :
    build [("a", FeatVal.num 3)] ["a", "b"] =
      build [("a", FeatVal.num 3), ("c", FeatVal.num 9)] ["a", "b"] :=
  (C2_build_elementwise [("a", FeatVal.num 3)] ["a", "b"]).2.2
    [("a", FeatVal.num 3), ("c", FeatVal.num 9)] (by decide)

/-- C5: the recommendation mapping is a fixed table: learner type
`"advanced"` always yields the difficulty adjustment `"Increase difficulty to
maintain engagement"`; engagement `"high"` always yields the high-engagement
tips; engagement `"medium"` always yields the empty tips list; and the
resources list is the same constant for every label pair. -/
theorem C5_recommendation_table (lt el : String) (sd : StudentFeatures) :
    (generate_recommendations "advanced" el sd).difficulty_adjustment =
      "Increase difficulty to maintain engagement" ∧
    (generate_recommendations lt "high" sd).motivation_tips =
      high_motivation_tips ∧
    (generate_recommendations lt "medium" sd).motivation_tips = [] ∧
    (generate_recommendations lt el sd).resources = resources_list := by
  unfold generate_recommendations
  refine ⟨?_, ?_, ?_, rfl⟩ <;> split_ifs <;> simp_all

/-- C8: for every deserialized dict record that contains a `pipeline` field,
loading succeeds, and absent optional fields default: `feature_names` and
`classes` to `[]`, `accuracy` to `0`. -/
theorem C8_optional_defaults (pl : Pipeline) (fn cls : Option (List String))
    (acc : Option ℚ) (fb : ReadResult) :
    loadOne (.present (.val (.dict (some pl) fn cls acc)) fb) =
      some ⟨pl, fn.getD [], cls.getD [], acc.getD 0⟩ := rfl

/-- C9: `get_adaptive_recommendations` is deterministic — two calls with
identical features against the same registry return identical results,
component for component. -/
theorem C9_deterministic (M : Registry) (F F' : StudentFeatures) (h : F = F') :
    get_adaptive_recommendations M F = get_adaptive_recommendations M F' ∧
    (∀ r r', get_adaptive_recommendations M F = .ok r →
      get_adaptive_recommendations M F' = .ok r' →
      r.recommendations.study_plan = r'.recommendations.study_plan ∧
      r.recommendations.difficulty_adjustment =
        r'.recommendations.difficulty_adjustment ∧
      r.recommendations.motivation_tips = r'.recommendations.motivation_tips ∧
      r.recommendations.resources = r'.recommendations.resources ∧
      r.learner_type = r'.learner_type ∧
      r.engagement_level = r'.engagement_level ∧
      r.confidence = r'.confidence) := by
  subst h
  refine ⟨rfl, fun r r' h1 h2 => ?_⟩
  rw [h1] at h2
  cases h2
  exact ⟨rfl, rfl, rfl, rfl, rfl, rfl, rfl⟩

/-- Witness for C9 at the empty registry and empty features. -/
theorem C9_deterministic_witness :
    get_adaptive_recommendations [] [] = get_adaptive_recommendations [] [] :=
  (C9_deterministic [] [] [] rfl).1

/-- C10: for labels outside the known learner types and engagement levels the
mapping still returns a complete record: empty study plan, empty difficulty
adjustment, empty motivation tips, and the constant resources list. -/
theorem C10_unknown_labels (lt el : String) (sd : StudentFeatures)
    (hlt1 : lt ≠ "advanced") (hlt2 : lt ≠ "moderate") (hlt3 : lt ≠ "struggling")
    (hel1 : el ≠ "low") (hel2 : el ≠ "high") :
    generate_recommendations lt el sd =
      { study_plan := [], resources := resources_list,
        difficulty_adjustment := "", motivation_tips := [] } := by
  unfold generate_recommendations
  simp [hlt1, hlt2, hlt3, hel1, hel2]

/-- C3: `get_adaptive_recommendations` returns the single orchestration error
whenever the learner model is absent, the engagement model is absent, or
either prediction call fails; and a successful result implies both
predictions succeeded — there is never a partial recommendation. -/
theorem C3_no_partial_recommendation (M : Registry) (F : StudentFeatures) :
    ((M.lookup "learner_classification_rf" = none ∨
      M.lookup "engagement_analysis_rf" = none ∨
      (∃ e, predict_learner_type M F = .error e) ∨
      (∃ e, analyze_engagement M F = .error e)) →
      get_adaptive_recommendations M F =
        .error "Failed to generate recommendations") ∧
    (∀ r, get_adaptive_recommendations M F = .ok r →
      (∃ lp, predict_learner_type M F = .ok lp) ∧
      (∃ ep, analyze_engagement M F = .ok ep)) := by
  constructor
  · rintro (h | h | ⟨e, he⟩ | ⟨e, he⟩)
    · have he := predict_learner_type_absent (F := F) h
      unfold get_adaptive_recommendations
      rw [he]
    · have he := analyze_engagement_absent (F := F) h
      unfold get_adaptive_recommendations
      rw [he]
      cases predict_learner_type M F <;> rfl
    · unfold get_adaptive_recommendations
      rw [he]
    · unfold get_adaptive_recommendations
      rw [he]
      cases predict_learner_type M F <;> rfl
  · intro r hr
    unfold get_adaptive_recommendations at hr
    cases hl : predict_learner_type M F <;> cases hh : analyze_engagement M F <;>
        rw [hl, hh] at hr
    case error.error | error.ok | ok.error => exact absurd hr (by simp)
    case ok.ok lp ep => exact ⟨⟨lp, rfl⟩, ⟨ep, rfl⟩⟩

/-- Witness for C3 at the empty registry: both models absent, the call fails
with the orchestration error. -/
theorem C3_no_partial_recommendation_witness :
    get_adaptive_recommendations [] [] =
      .error "Failed to generate recommendations" :=
  (C3_no_partial_recommendation [] []).1 (Or.inl rfl)

/-- The loading loop unfolded: the registry is the concatenation of the three
per-name outcomes, each determined solely by its own file's state. -/
theorem load_all_models_eq (store : String → FileState) :
    load_all_models store =
      (match loadOne (store "learner_classification_rf.pkl") with
       | some a => [("learner_classification_rf", a)]
       | none => []) ++
      (match loadOne (store "performance_prediction_gb.pkl") with
       | some a => [("performance_prediction_gb", a)]
       | none => []) ++
      (match loadOne (store "engagement_analysis_rf.pkl") with
       | some a => [("engagement_analysis_rf", a)]
       | none => []) := by
  rcases h1 : loadOne (store "learner_classification_rf.pkl") with _ | a1 <;>
    rcases h2 : loadOne (store "performance_prediction_gb.pkl") with _ | a2 <;>
    rcases h3 : loadOne (store "engagement_analysis_rf.pkl") with _ | a3 <;>
    simp [load_all_models, model_files, h1, h2, h3] <;> and_intros <;> rfl

/-- C7: initialization isolates failures per model name — each name's final
registry entry is exactly the outcome of loading that name's own file
(so one failure never aborts the others); a primary deserialization error is
followed by exactly one `latin1` fallback attempt, and a primary value by
none; and the registry's keys come only from the fixed name list, holding
exactly the successfully loaded models. -/
theorem C7_per_name_isolation (store : String → FileState) :
    (∀ file ∈ model_files,
      (load_all_models store).lookup (modelNameOf file) = loadOne (store file)) ∧
    (∀ file fb, store file = .present .raisesExc fb →
      deserAttempts (store file) = [.primary, .fallbackLatin1]) ∧
    (∀ file v fb, store file = .present (.val v) fb →
      deserAttempts (store file) = [.primary]) ∧
    ((load_all_models store).map Prod.fst).Sublist
      (model_files.map modelNameOf) := by
  have hn1 : modelNameOf "learner_classification_rf.pkl" =
    "learner_classification_rf" := rfl
  have hn2 : modelNameOf "performance_prediction_gb.pkl" =
    "performance_prediction_gb" := rfl
  have hn3 : modelNameOf "engagement_analysis_rf.pkl" =
    "engagement_analysis_rf" := rfl
  refine ⟨?_, fun file fb h => by rw [h]; rfl, fun file v fb h => by rw [h]; rfl, ?_⟩
  · intro file hfile
    rw [load_all_models_eq]
    rcases show file = "learner_classification_rf.pkl" ∨
        file = "performance_prediction_gb.pkl" ∨
        file = "engagement_analysis_rf.pkl" by
          simpa [model_files] using hfile with rfl | rfl | rfl <;>
      rcases h1 : loadOne (store "learner_classification_rf.pkl") with _ | a1 <;>
      rcases h2 : loadOne (store "performance_prediction_gb.pkl") with _ | a2 <;>
      rcases h3 : loadOne (store "engagement_analysis_rf.pkl") with _ | a3 <;>
      simp [List.lookup, hn1, hn2, hn3]
  · rw [load_all_models_eq]
    rcases h1 : loadOne (store "learner_classification_rf.pkl") with _ | a1 <;>
      rcases h2 : loadOne (store "performance_prediction_gb.pkl") with _ | a2 <;>
      rcases h3 : loadOne (store "engagement_analysis_rf.pkl") with _ | a3 <;>
      simp [model_files, hn1, hn2, hn3]

/-- Witness for C7 at `storeMixed`: the learner name's registry entry equals
its own load outcome, and its raising primary load is followed by exactly the
one `latin1` fallback attempt. -/
theorem C7_per_name_isolation_witness :
    (load_all_models storeMixed).lookup "learner_classification_rf" =
      loadOne (storeMixed "learner_classification_rf.pkl") ∧
    deserAttempts (storeMixed "learner_classification_rf.pkl") =
      [.primary, .fallbackLatin1] :=
  ⟨(C7_per_name_isolation storeMixed).1 "learner_classification_rf.pkl"
    (by decide),
   (C7_per_name_isolation storeMixed).2.1 "learner_classification_rf.pkl"
    (.val (.dict (some plTwoClass) none none (some 1))) rfl⟩

/-- C1 counterexample: the registry built from `storeNoFeatureNames` holds a
learner artifact whose `feature_names` is `[]` (the loader's default), yet
the vector `predict_learner_type` hands to its pipeline is built from the
hard-coded ten-column order, not from that artifact's `feature_names`. -/
theorem C1_counterexample :
    (load_all_models storeNoFeatureNames).lookup "learner_classification_rf" =
      some artNoFeatureNames ∧
    learnerInputVector [] ≠ build [] artNoFeatureNames.feature_names := by
  exact ⟨rfl, by decide⟩

/-- C1 (amended): the Predictor builds its row from the fixed hard-coded
column order of each prediction; this coincides with ordering by the loaded
artifact's own `feature_names` exactly when that metadata equals the
hard-coded list. -/
theorem C1_fixed_schema (M : Registry) (art : ModelArtifact)
    (F : StudentFeatures) :
    (M.lookup "learner_classification_rf" = some art →
      art.feature_names = learner_feature_cols →
      learnerInputVector F = build F art.feature_names) ∧
    (M.lookup "engagement_analysis_rf" = some art →
      art.feature_names = engagement_feature_cols →
      engagementInputVector F = build F art.feature_names) := by
  constructor <;> exact fun _ h => by rw [h]; rfl

/-- Witness for the amended C1: with matching metadata the learner row is
ordered by the artifact's `feature_names`. -/
theorem C1_fixed_schema_witness :
    learnerInputVector [] = build [] artMatchingNames.feature_names :=
  (C1_fixed_schema regLearnerOnly artMatchingNames []).1 rfl rfl

/-- C6 counterexample: with the learner model loaded and `"accuracy"` bound
to a value that cannot be coerced to float, `predict_learner_type` fails with
the generic `"Prediction failed: ..."` error of its catch-all handler — the
code has no distinct `FeatureTypeInvalid` error. -/
theorem C6_counterexample :
    predict_learner_type regLearnerOnly [("accuracy", FeatVal.obj)] =
      .error ("Prediction failed: " ++ floatConvMsg) := rfl

/-- C6 (amended): feature-vector construction itself is total — a missing key
defaults to `0` and never raises — while a present value that cannot be
coerced to float makes the prediction fail with the generic
`"Prediction failed: ..."` error (the same channel as every other in-try
failure), not a distinct `FeatureTypeInvalid`. -/
theorem C6_missing_defaults_bad_value_generic (M : Registry)
    (art : ModelArtifact) (F : StudentFeatures)
    (hart : M.lookup "learner_classification_rf" = some art) :
    (∀ i : Nat, (learnerInputVector F)[i]? =
      (learner_feature_cols[i]?).map (fun c => (F.lookup c).getD (.num 0))) ∧
    (coerceVec (learnerInputVector F) = none →
      predict_learner_type M F =
        .error ("Prediction failed: " ++ floatConvMsg)) := by
  constructor
  · intro i
    simp [learnerInputVector, build]
  · intro h
    unfold predict_learner_type
    rw [hart, h]

/-- Witness for the amended C6 at a concrete registry and a non-coercible
`"accuracy"` value. -/
theorem C6_missing_defaults_bad_value_generic_witness :
    predict_learner_type regLearnerOnly [("accuracy", FeatVal.obj)] =
      .error ("Prediction failed: " ++ floatConvMsg) :=
  (C6_missing_defaults_bad_value_generic regLearnerOnly artMatchingNames
    [("accuracy", FeatVal.obj)] rfl).2 rfl

/-- C4: when the learner artifact's pipeline yields a class-probability
distribution summing to 1 (positions aligned with its class list), a
successful `predict_learner_type` returns a `confidence` equal to the maximum
probability and a `learner_type` whose probability in the distribution — the
entry at that label's class position — equals that confidence (the argmax
class). -/
theorem C4_confidence_is_argmax (M : Registry) (art : ModelArtifact)
    (F : StudentFeatures) (X : List ℚ)
    (hart : M.lookup "learner_classification_rf" = some art)
    (hvec : coerceVec (learnerInputVector F) = some X)
    (hsum : (art.pipeline.predict_proba X).sum = 1)
    (hlen : art.pipeline.classes_.length =
      (art.pipeline.predict_proba X).length) :
    ∃ (p : LearnerPrediction) (i : Nat),
      predict_learner_type M F = .ok p ∧
      (art.pipeline.predict_proba X).max? = some p.confidence ∧
      art.pipeline.classes_[i]? = some p.learner_type ∧
      (art.pipeline.predict_proba X)[i]? = some p.confidence := by
  have hne : art.pipeline.predict_proba X ≠ [] := by
    intro hn
    rw [hn] at hsum
    simp at hsum
  obtain ⟨m, hm⟩ : ∃ m, (art.pipeline.predict_proba X).max? = some m := by
    cases h : (art.pipeline.predict_proba X).max? with
    | none => exact absurd (List.max?_eq_none_iff.mp h) hne
    | some m => exact ⟨m, rfl⟩
  have hmem : m ∈ art.pipeline.predict_proba X :=
    List.max?_mem (fun a b => max_choice a b) hm
  have hidx : (art.pipeline.predict_proba X).indexOf m <
      (art.pipeline.predict_proba X).length := List.indexOf_lt_length.mpr hmem
  have hargmax : argmaxIdx (art.pipeline.predict_proba X) =
      (art.pipeline.predict_proba X).indexOf m := by
    unfold argmaxIdx
    rw [hm]
  have hlt : argmaxIdx (art.pipeline.predict_proba X) <
      art.pipeline.classes_.length := by
    rw [hargmax, hlen]
    exact hidx
  have hlabel : pipePredict art.pipeline X =
      art.pipeline.classes_[argmaxIdx (art.pipeline.predict_proba X)] := by
    unfold pipePredict
    rw [List.getD_eq_getElem?_getD, List.getElem?_eq_getElem hlt,
      Option.getD_some]
  refine ⟨⟨pipePredict art.pipeline X, m, pipePredict art.pipeline X, m⟩,
    argmaxIdx (art.pipeline.predict_proba X), ?_, hm, ?_, ?_⟩
  · unfold predict_learner_type
    rw [hart, hvec]
    show (match (art.pipeline.predict_proba X).max? with
      | none =>
        (Except.error ("Prediction failed: " ++ emptySeqMsg) :
          Except String LearnerPrediction)
      | some confidence =>
        Except.ok ⟨pipePredict art.pipeline X, confidence,
          pipePredict art.pipeline X, confidence⟩) = _
    rw [hm]
  · rw [hlabel, List.getElem?_eq_getElem hlt]
  · rw [hargmax]
    exact List.getElem?_indexOf hmem

/-- Witness for C4 at a concrete registry whose learner pipeline outputs the
distribution `[0, 1]` over two classes. -/
theorem C4_confidence_is_argmax_witness :
    ∃ (p : LearnerPrediction) (i : Nat),
      predict_learner_type regLearnerOnly [] = .ok p ∧
      (artMatchingNames.pipeline.predict_proba
        [0, 0, 0, 0, 0, 0, 0, 0, 0, 0]).max? = some p.confidence ∧
      artMatchingNames.pipeline.classes_[i]? = some p.learner_type ∧
      (artMatchingNames.pipeline.predict_proba
        [0, 0, 0, 0, 0, 0, 0, 0, 0, 0])[i]? = some p.confidence :=
  C4_confidence_is_argmax regLearnerOnly artMatchingNames []
    [0, 0, 0, 0, 0, 0, 0, 0, 0, 0] rfl rfl
    (by simp [artMatchingNames, plTwoClass]) rfl

/-- Witness for C10 at the unknown labels `"expert"` and `"extreme"`. -/
theorem C10_unknown_labels_witness :
    generate_recommendations "expert" "extreme" [] =
      { study_plan := [], resources := resources_list,
        difficulty_adjustment := "", motivation_tips := [] } :=
  C10_unknown_labels "expert" "extreme" [] (by decide) (by decide) (by decide)
    (by decide) (by decide)

end AdaptiveLearning
